import Mathlib

set_option autoImplicit false

/-!
Shallow embedding of the postspot post service (src/main.py and
src/postspot/data_gateway.py).

Modelling choices, stated once:

* Coordinates, radii and distances are rational numbers (`ℚ`): Python floats
  appear in the source only as opaque numeric values that are multiplied,
  compared and passed around, never in float-specific ways.
* The geodesic distance computed by the external `geopy` library
  (`geodesic(reference_point, post_point).meters`) is abstracted as a function
  parameter `geo : ℚ → ℚ → ℚ → ℚ → ℚ` taking the reference point's latitude and
  longitude and the post's latitude and longitude (geopy `Point` takes
  (latitude, longitude), in that order) and returning meters.  `geopy` is an
  external collaborator, not repository code, so every theorem quantifies over
  it.
* The Firestore document database is an association list from document id to
  record for the `posts` collection plus the list of existing document ids of
  the `users` collection.  `doc_ref.set` replaces the binding when the id is
  present and appends it otherwise; `stream` and `where(...).get` iterate the
  collection in list order (the source relies on no order).
* Gateway operations are written in state-passing style
  `FirestoreState → result × FirestoreState` so that "performs no write" is a
  provable statement rather than a typing accident; raising a Python exception
  is the `Except.error` case of the result.
* Python local-variable semantics are kept: in `main.add_post` the local
  `token` is assigned only inside the `if "X-Forwarded-Authorization" ...`
  block, so when the header is absent the later `if not token:` test reads an
  unbound local and raises `UnboundLocalError`; an exception that no handler
  catches surfaces as the framework's 500 response, modelled as
  `HttpResponse.serverError`.  Likewise `bearer.split()[1]` raises `IndexError`
  when the split yields fewer than two components.
* Python f-string renderings such as `f"No post with {post_id=} found"` are
  modelled as string concatenations keeping the `name=value` shape; the quotes
  Python's repr would put around the value are omitted, which is irrelevant to
  every claim (only equality and containment of messages matter).
-/

namespace PostSpot

/-- The Post record of src/postspot/data_gateway.py (`Post.to_dict` shape:
exactly these six fields).  In every flow exercised by the service all six
fields are set, so the Python `None` defaults never surface. -/
structure Post where
  post_id : String
  author_google_id : String
  title : String
  content : String
  longitude : ℚ
  latitude : ℚ
deriving DecidableEq, Repr

/-- The two domain exceptions of src/postspot/data_gateway.py:
`PostNotFoundError(post_id)` and `NoPostNearbyError(radius, longitude,
latitude)`, carrying their constructor arguments. -/
inductive GatewayError where
  | postNotFound (post_id : String)
  | noPostNearby (radius longitude latitude : ℚ)
deriving DecidableEq, Repr

/-- The claims decoded from an OpenID token by `decode_openid_token` in
src/postspot/auth.py (external to the two source files): the 5-tuple
(google_id, name, email, token_issued_t, token_expired_t) destructured in
src/main.py.  Only `google_id` is consumed; the timestamps feed debug logs. -/
structure TokenClaims where
  google_id : String
  name : String
  email : String
  token_issued_t : ℤ
  token_expired_t : ℤ
deriving DecidableEq, Repr

/-- The Firestore document database as seen by FirestoreGateway: the "posts"
collection (document id bound to record) and the set of ids present in the
"users" collection. -/
structure FirestoreState where
  posts : List (String × Post)
  users : List String
deriving DecidableEq, Repr

/-- Point lookup of a document by id in a collection, `doc_ref.get()` /
`doc.exists` semantics on the association list. -/
def lookupDoc : List (String × Post) → String → Option Post
  | [], _ => none
  | (k, q) :: rest, id => if k = id then some q else lookupDoc rest id

/-- `doc_ref.set(data)`: replace the record when the document id is already
bound, append a fresh document otherwise. -/
def setDoc : List (String × Post) → String → Post → List (String × Post)
  | [], id, p => [(id, p)]
  | (k, q) :: rest, id, p =>
      if k = id then (id, p) :: rest else (k, q) :: setDoc rest id p

/-- Helper for `pySplit`: walk the characters, accumulating the current
component (reversed) and emitting it at each space, dropping empty
components as Python `str.split()` does. -/
def splitWsAux : List Char → List Char → List String
  | [], cur => if cur.isEmpty then [] else [String.mk cur.reverse]
  | c :: rest, cur =>
      if c = ' ' then
        if cur.isEmpty then splitWsAux rest []
        else String.mk cur.reverse :: splitWsAux rest []
      else splitWsAux rest (c :: cur)

/-- Python `str.split()` on a header value: split on runs of spaces and drop
empty components (HTTP header values carry no newlines; tabs do not occur in
the `"<scheme> <token>"` shape the service expects). -/
def pySplit (s : String) : List String :=
  splitWsAux s.data []

namespace DataGateway

/-- FirestoreGateway.add_post: `document()` allocates a fresh id (passed in
here as `freshId`, mirroring the storage layer's collision-free allocator),
the full record is stored under it via `doc_ref.set(Post(...).to_dict())`, and
the id is returned. -/
def add_post (db : FirestoreState) (freshId : String)
    (author_google_id title content : String) (longitude latitude : ℚ) :
    String × FirestoreState :=
  (freshId,
   { db with
      posts := setDoc db.posts freshId
        { post_id := freshId, author_google_id := author_google_id,
          title := title, content := content,
          longitude := longitude, latitude := latitude } })

/-- FirestoreGateway.read_post: return the stored record when the document
exists, raise `PostNotFoundError(post_id)` otherwise.  No write happens, so
the state component is returned untouched. -/
def read_post (db : FirestoreState) (post_id : String) :
    Except GatewayError Post × FirestoreState :=
  ((match lookupDoc db.posts post_id with
    | some doc => Except.ok doc
    | none => Except.error (GatewayError.postNotFound post_id)), db)

/-- FirestoreGateway.get_posts_within_radius: convert the radius to meters
(`radius * 1000`), stream every stored post, keep those whose geodesic
distance from the reference point is `<= radius_meters`, return the matched
records, and raise `NoPostNearbyError(radius, longitude, latitude)` when none
matched.  The reference geopy Point is `Point(latitude, longitude)` and each
post's is `Point(post['latitude'], post['longitude'])`, hence the argument
order of `geo`.  No write happens. -/
def get_posts_within_radius (geo : ℚ → ℚ → ℚ → ℚ → ℚ) (db : FirestoreState)
    (longitude latitude radius : ℚ) :
    Except GatewayError (List Post) × FirestoreState :=
  let radius_meters := radius * 1000
  let matched := db.posts.filter fun doc =>
    decide (geo latitude longitude doc.2.latitude doc.2.longitude ≤ radius_meters)
  ((if matched.isEmpty then
      Except.error (GatewayError.noPostNearby radius longitude latitude)
    else
      Except.ok (matched.map Prod.snd)), db)

/-- FirestoreGateway.get_post_from_author: Firestore
`where("author_google_id", "==", author_google_id).get()`, returning the
matching records as dicts; an empty list is returned normally, no exception
exists on this path.  No write happens. -/
def get_post_from_author (db : FirestoreState) (author_google_id : String) :
    List Post × FirestoreState :=
  (((db.posts.filter fun doc =>
      decide (doc.2.author_google_id = author_google_id)).map Prod.snd), db)

/-- FirestoreGateway.user_exists: point lookup in the "users" collection;
absence is the answer `false`, not an error.  No write happens. -/
def user_exists (db : FirestoreState) (google_id : String) :
    Bool × FirestoreState :=
  (db.users.contains google_id, db)

end DataGateway

/-- HTTP responses visible to the caller of src/main.py's handlers:
`json s m` is `jsonify({"message": m}), s`; `postJson` and `postsJson` are the
dict returns Flask serialises with status 200; `serverError` is the
framework's 500 page produced when a handler raises an exception no `except`
block catches. -/
inductive HttpResponse where
  | json (status : Nat) (message : String)
  | postJson (status : Nat) (post : Post)
  | postsJson (status : Nat) (posts : List Post)
  | serverError
deriving DecidableEq, Repr

/-- The HTTP status code of a response; an uncaught exception surfaces as the
framework's 500. -/
def HttpResponse.status : HttpResponse → Nat
  | .json s _ => s
  | .postJson s _ => s
  | .postsJson s _ => s
  | .serverError => 500

/-- The body of a `POST /posts` request as consumed by src/main.py:
the optional `X-Forwarded-Authorization` header and the JSON fields
`title`, `content`, `longitude`, `latitude`. -/
structure AddPostRequest where
  authHeader : Option String
  title : String
  content : String
  longitude : ℚ
  latitude : ℚ
deriving DecidableEq, Repr

namespace Main

open DataGateway

/-- The `user_signed_up` decorator of src/main.py (defined there, though the
`add_post` endpoint has it commented out): `token = None`; if the
`X-Forwarded-Authorization` header is present, `token = bearer.split()[1]`
(an `IndexError` here is outside the `try` and is uncaught); `if not token`
yields 401 "Token not provided"; a `decode_openid_token` failure is caught
and yields 401 "Invalid token or user not signed up"; an unregistered
`google_id` yields the same 401 message; otherwise the wrapped function
receives the verified `google_id`.  `decode` abstracts
`decode_openid_token` (`none` = the call raised). -/
def user_signed_up (decode : String → Option TokenClaims)
    (db : FirestoreState) (authHeader : Option String) :
    Except HttpResponse String :=
  match authHeader with
  | none => Except.error (HttpResponse.json 401 "Token not provided")
  | some bearer =>
    match (pySplit bearer)[1]? with
    | none => Except.error HttpResponse.serverError
    | some token =>
      match decode token with
      | none =>
          Except.error (HttpResponse.json 401 "Invalid token or user not signed up")
      | some claims =>
          if (user_exists db claims.google_id).1 then
            Except.ok claims.google_id
          else
            Except.error (HttpResponse.json 401 "Invalid token or user not signed up")

/-- The `POST /posts` endpoint `add_post` of src/main.py as it stands (the
`@user_signed_up` decorator is commented out and the gate is inlined WITHOUT
the `token = None` initialisation): when the header is absent, `token` is an
unbound local and `if not token:` raises `UnboundLocalError` (uncaught, hence
`serverError`); when `bearer.split()` has fewer than two components,
`bearer.split()[1]` raises `IndexError` (uncaught); a `decode_openid_token`
failure is caught, yielding 401 "Invalid token or user not signed up"; an
unregistered `google_id` yields 401 "User with google_id=... does not exist";
otherwise the post is stored via the gateway and 201 reports the new post id
and author id. -/
def add_post (decode : String → Option TokenClaims) (db : FirestoreState)
    (freshId : String) (req : AddPostRequest) :
    HttpResponse × FirestoreState :=
  match req.authHeader with
  | none => (HttpResponse.serverError, db)
  | some bearer =>
    match (pySplit bearer)[1]? with
    | none => (HttpResponse.serverError, db)
    | some token =>
      match decode token with
      | none =>
          (HttpResponse.json 401 "Invalid token or user not signed up", db)
      | some claims =>
          if (user_exists db claims.google_id).1 then
            let created := DataGateway.add_post db freshId claims.google_id
              req.title req.content req.longitude req.latitude
            (HttpResponse.json 201
              ("Post post_id=" ++ created.1 ++ " added by user google_id="
                ++ claims.google_id), created.2)
          else
            (HttpResponse.json 401
              ("User with google_id=" ++ claims.google_id ++ " does not exist"), db)

/-- The `GET /posts/<post_id>` endpoint `read_post` of src/main.py: return the
stored dict (Flask serialises it with status 200) or catch
`PostNotFoundError` and answer 404 with a message naming the requested id. -/
def read_post (db : FirestoreState) (post_id : String) : HttpResponse :=
  match (DataGateway.read_post db post_id).1 with
  | Except.ok doc => HttpResponse.postJson 200 doc
  | Except.error _ =>
      HttpResponse.json 404 ("No post with post_id=" ++ post_id ++ " found")

/-- The handler function `get_posts_nearby(longitude, latitude,
radius_in_kilometers=0.07)` of src/main.py, with the radius made explicit:
delegate to the gateway query and catch `NoPostNearbyError` as a 404 (whose
message, as in the source, lacks the closing parenthesis). -/
def get_posts_nearby (geo : ℚ → ℚ → ℚ → ℚ → ℚ) (db : FirestoreState)
    (longitude latitude radius_in_kilometers : ℚ) : HttpResponse :=
  match (get_posts_within_radius geo db longitude latitude radius_in_kilometers).1 with
  | Except.ok found => HttpResponse.postsJson 200 found
  | Except.error _ =>
      HttpResponse.json 404
        ("No posts within " ++ toString radius_in_kilometers
          ++ " km of (longitude=" ++ toString longitude
          ++ ", latitude=" ++ toString latitude)

/-- The route `GET /posts/<float:longitude>/<float:latitude>` as dispatched:
the rule declares exactly the two variables `longitude` and `latitude`, the
handler never reads `request.args`, so `radiusParam` — any radius the caller
attaches to the request — never reaches `get_posts_nearby`, whose
`radius_in_kilometers` keeps its default 0.07 on every request. -/
def get_posts_nearby_route (geo : ℚ → ℚ → ℚ → ℚ → ℚ) (db : FirestoreState)
    (longitude latitude : ℚ) (radiusParam : Option ℚ) : HttpResponse :=
  get_posts_nearby geo db longitude latitude (7 / 100)

end Main

/-!  Helper lemmas shared by the claim theorems.  -/

/-- The documents matched by the geodesic filter of
`get_posts_within_radius`, named for use in specifications. -/
def matchedDocs (geo : ℚ → ℚ → ℚ → ℚ → ℚ) (db : FirestoreState)
    (longitude latitude radius : ℚ) : List (String × Post) :=
  db.posts.filter fun doc =>
    decide (geo latitude longitude doc.2.latitude doc.2.longitude ≤ radius * 1000)

theorem get_posts_within_radius_eq (geo : ℚ → ℚ → ℚ → ℚ → ℚ)
    (db : FirestoreState) (longitude latitude radius : ℚ) :
    DataGateway.get_posts_within_radius geo db longitude latitude radius
      = ((if (matchedDocs geo db longitude latitude radius).isEmpty then
            Except.error (GatewayError.noPostNearby radius longitude latitude)
          else
            Except.ok ((matchedDocs geo db longitude latitude radius).map Prod.snd)), db) :=
  rfl

theorem lookupDoc_setDoc_self (l : List (String × Post)) (id : String) (p : Post) :
    lookupDoc (setDoc l id p) id = some p := by
  induction l with
  | nil => simp [setDoc, lookupDoc]
  | cons kv rest ih =>
      obtain ⟨k, q⟩ := kv
      by_cases h : k = id
      · simp [setDoc, lookupDoc, h]
      · simp [setDoc, lookupDoc, h, ih]

theorem mem_map_snd (l : List (String × Post)) (p : Post) :
    p ∈ l.map Prod.snd ↔ ∃ id, (id, p) ∈ l := by
  constructor
  · intro h
    rcases List.mem_map.mp h with ⟨a, ha, rfl⟩
    exact ⟨a.1, by simpa using ha⟩
  · rintro ⟨id, h⟩
    exact List.mem_map.mpr ⟨(id, p), h, rfl⟩

theorem mem_matchedDocs_iff (geo : ℚ → ℚ → ℚ → ℚ → ℚ) (db : FirestoreState)
    (longitude latitude radius : ℚ) (id : String) (p : Post) :
    (id, p) ∈ matchedDocs geo db longitude latitude radius
      ↔ (id, p) ∈ db.posts
          ∧ geo latitude longitude p.latitude p.longitude ≤ radius * 1000 := by
  unfold matchedDocs
  rw [List.mem_filter]
  simp

/-!  Claim theorems.  -/

/-- C1: for every stored collection of posts, reference point and radius in
kilometers, the Strategy A proximity query `get_posts_within_radius` includes
a post in its (normally returned) result if and only if the post is stored and
the geodesic surface distance in meters between the reference point and the
post's coordinate is at most `radius * 1000`. -/
theorem get_posts_within_radius_mem_iff (geo : ℚ → ℚ → ℚ → ℚ → ℚ)
    (db : FirestoreState) (longitude latitude radius : ℚ) (p : Post) :
    (∃ res, (DataGateway.get_posts_within_radius geo db longitude latitude radius).1
        = Except.ok res ∧ p ∈ res)
      ↔ (∃ id, (id, p) ∈ db.posts)
          ∧ geo latitude longitude p.latitude p.longitude ≤ radius * 1000 := by
  rw [get_posts_within_radius_eq]
  by_cases hE : (matchedDocs geo db longitude latitude radius).isEmpty
  · simp only [hE, if_pos]
    constructor
    · rintro ⟨res, hres, -⟩
      exact absurd hres (by simp)
    · rintro ⟨⟨id, hid⟩, hd⟩
      have hmem : (id, p) ∈ matchedDocs geo db longitude latitude radius :=
        (mem_matchedDocs_iff geo db longitude latitude radius id p).mpr ⟨hid, hd⟩
      rw [List.isEmpty_iff] at hE
      simp [hE] at hmem
  · simp only [hE, if_neg, Bool.false_eq_true, not_false_iff]
    constructor
    · rintro ⟨res, hres, hp⟩
      have : res = (matchedDocs geo db longitude latitude radius).map Prod.snd := by
        injection hres with h
        exact h.symm
      subst this
      rcases (mem_map_snd _ p).mp hp with ⟨id, hid⟩
      rcases (mem_matchedDocs_iff geo db longitude latitude radius id p).mp hid with ⟨h1, h2⟩
      exact ⟨⟨id, h1⟩, h2⟩
    · rintro ⟨⟨id, hid⟩, hd⟩
      refine ⟨(matchedDocs geo db longitude latitude radius).map Prod.snd, rfl, ?_⟩
      exact (mem_map_snd _ p).mpr
        ⟨id, (mem_matchedDocs_iff geo db longitude latitude radius id p).mpr ⟨hid, hd⟩⟩

/-- C4: the Strategy A proximity query signals
`NoPostNearby(radius, longitude, latitude)` exactly when no stored post passes
the distance filter; when at least one passes it returns a normal result; in
either case the store is left unchanged. -/
theorem get_posts_within_radius_error_spec (geo : ℚ → ℚ → ℚ → ℚ → ℚ)
    (db : FirestoreState) (longitude latitude radius : ℚ) :
    ((DataGateway.get_posts_within_radius geo db longitude latitude radius).1
        = Except.error (GatewayError.noPostNearby radius longitude latitude)
      ↔ ∀ id p, (id, p) ∈ db.posts →
          ¬ geo latitude longitude p.latitude p.longitude ≤ radius * 1000)
    ∧ ((∃ res, (DataGateway.get_posts_within_radius geo db longitude latitude radius).1
          = Except.ok res)
      ↔ ∃ id p, (id, p) ∈ db.posts
          ∧ geo latitude longitude p.latitude p.longitude ≤ radius * 1000)
    ∧ (DataGateway.get_posts_within_radius geo db longitude latitude radius).2 = db := by
  have hnil : matchedDocs geo db longitude latitude radius = []
      ↔ ∀ id p, (id, p) ∈ db.posts →
          ¬ geo latitude longitude p.latitude p.longitude ≤ radius * 1000 := by
    unfold matchedDocs
    rw [List.filter_eq_nil_iff]
    constructor
    · intro h id p hmem
      have := h (id, p) hmem
      simpa using this
    · intro h doc hmem
      have := h doc.1 doc.2 hmem
      simpa using this
  refine ⟨?_, ?_, rfl⟩
  · rw [get_posts_within_radius_eq]
    by_cases hE : (matchedDocs geo db longitude latitude radius).isEmpty
    · rw [List.isEmpty_iff] at hE
      simp only [List.isEmpty_iff, hE, if_pos]
      simpa [hE] using hnil.mp hE
    · rw [Bool.not_eq_true, ← Bool.not_eq_true] at hE
      simp only [if_neg hE]
      rw [Bool.not_eq_true, List.isEmpty_eq_false_iff_exists_mem] at hE
      constructor
      · intro h
        exact absurd h (by simp)
      · intro h
        rcases hE with ⟨doc, hdoc⟩
        have := hnil.mpr h
        simp [this] at hdoc
  · rw [get_posts_within_radius_eq]
    by_cases hE : (matchedDocs geo db longitude latitude radius).isEmpty
    · rw [List.isEmpty_iff] at hE
      simp only [List.isEmpty_iff, hE, if_pos]
      constructor
      · rintro ⟨res, hres⟩
        exact absurd hres (by simp)
      · rintro ⟨id, p, hid, hd⟩
        have hmem : (id, p) ∈ matchedDocs geo db longitude latitude radius :=
          (mem_matchedDocs_iff geo db longitude latitude radius id p).mpr ⟨hid, hd⟩
        simp [hE] at hmem
    · simp only [if_neg hE]
      rw [Bool.not_eq_true, List.isEmpty_eq_false_iff_exists_mem] at hE
      constructor
      · intro _
        rcases hE with ⟨doc, hdoc⟩
        rcases (mem_matchedDocs_iff geo db longitude latitude radius doc.1 doc.2).mp
          (by simpa using hdoc) with ⟨h1, h2⟩
        exact ⟨doc.1, doc.2, h1, h2⟩
      · intro _
        exact ⟨_, rfl⟩

/-- C3: a post created through the store's `add_post` and read back through
`read_post` at the returned id comes back equal in every field. -/
theorem add_post_read_post_roundtrip (db : FirestoreState)
    (freshId author_google_id title content : String) (longitude latitude : ℚ) :
    (DataGateway.read_post
        (DataGateway.add_post db freshId author_google_id title content longitude latitude).2
        (DataGateway.add_post db freshId author_google_id title content longitude latitude).1).1
      = Except.ok { post_id := freshId, author_google_id := author_google_id,
                    title := title, content := content,
                    longitude := longitude, latitude := latitude } := by
  simp [DataGateway.read_post, DataGateway.add_post, lookupDoc_setDoc_self]

/-- C9: the record written by `add_post` sits under a document key equal to
the id `add_post` returns, and that stored record's `post_id` field equals the
same id. -/
theorem add_post_id_consistency (db : FirestoreState)
    (freshId author_google_id title content : String) (longitude latitude : ℚ) :
    (DataGateway.add_post db freshId author_google_id title content longitude latitude).1
        = freshId
    ∧ ∃ rec : Post,
        lookupDoc
          (DataGateway.add_post db freshId author_google_id title content longitude latitude).2.posts
          (DataGateway.add_post db freshId author_google_id title content longitude latitude).1
          = some rec
        ∧ rec.post_id
            = (DataGateway.add_post db freshId author_google_id title content longitude latitude).1 := by
  refine ⟨rfl, ⟨{ post_id := freshId, author_google_id := author_google_id,
                  title := title, content := content,
                  longitude := longitude, latitude := latitude }, ?_, rfl⟩⟩
  simp [DataGateway.add_post, lookupDoc_setDoc_self]

/-- C10: the read operations `read_post`, `get_posts_within_radius`,
`get_post_from_author` and `user_exists` leave the store exactly as they
found it, including when they terminate by raising an error. -/
theorem read_operations_frame (geo : ℚ → ℚ → ℚ → ℚ → ℚ) (db : FirestoreState)
    (post_id author_google_id google_id : String) (longitude latitude radius : ℚ) :
    (DataGateway.read_post db post_id).2 = db
    ∧ (DataGateway.get_posts_within_radius geo db longitude latitude radius).2 = db
    ∧ (DataGateway.get_post_from_author db author_google_id).2 = db
    ∧ (DataGateway.user_exists db google_id).2 = db :=
  ⟨rfl, rfl, rfl, rfl⟩

/-- C5: the gateway `read_post` fails with `PostNotFoundError` exactly when no
record with the requested id is stored, and returns the stored record
otherwise; the HTTP handler turns the failure into a 404 whose message
contains the requested id, and returns the stored record with 200 otherwise. -/
theorem read_post_not_found_spec (db : FirestoreState) (post_id : String) :
    ((DataGateway.read_post db post_id).1
        = Except.error (GatewayError.postNotFound post_id)
      ↔ lookupDoc db.posts post_id = none)
    ∧ (∀ p, lookupDoc db.posts post_id = some p →
        (DataGateway.read_post db post_id).1 = Except.ok p)
    ∧ (lookupDoc db.posts post_id = none →
        Main.read_post db post_id
          = HttpResponse.json 404 ("No post with post_id=" ++ post_id ++ " found"))
    ∧ (∀ p, lookupDoc db.posts post_id = some p →
        Main.read_post db post_id = HttpResponse.postJson 200 p)
    ∧ (∃ pre suf, "No post with post_id=" ++ post_id ++ " found"
        = pre ++ (post_id ++ suf)) := by
  refine ⟨?_, ?_, ?_, ?_, ⟨"No post with post_id=", " found", ?_⟩⟩
  · cases h : lookupDoc db.posts post_id <;>
      simp [DataGateway.read_post, h]
  · intro p hp
    simp [DataGateway.read_post, hp]
  · intro h
    simp [Main.read_post, DataGateway.read_post, h]
  · intro p hp
    simp [Main.read_post, DataGateway.read_post, hp]
  · exact String.append_assoc _ _ _

/-- C5 witness: a concrete two-document store in which a present id is
returned with its record and an absent id produces the 404 message naming
it. -/
theorem read_post_not_found_spec_witness :
    (DataGateway.read_post
        { posts := [("p1", { post_id := "p1", author_google_id := "a1",
                             title := "T", content := "C",
                             longitude := 0, latitude := 0 })], users := [] } "p1").1
      = Except.ok { post_id := "p1", author_google_id := "a1", title := "T",
                    content := "C", longitude := 0, latitude := 0 }
    ∧ Main.read_post
        { posts := [("p1", { post_id := "p1", author_google_id := "a1",
                             title := "T", content := "C",
                             longitude := 0, latitude := 0 })], users := [] } "missing"
      = HttpResponse.json 404 ("No post with post_id=" ++ "missing" ++ " found") :=
  ⟨(read_post_not_found_spec
      { posts := [("p1", { post_id := "p1", author_google_id := "a1",
                           title := "T", content := "C",
                           longitude := 0, latitude := 0 })], users := [] } "p1").2.1
      _ rfl,
   (read_post_not_found_spec
      { posts := [("p1", { post_id := "p1", author_google_id := "a1",
                           title := "T", content := "C",
                           longitude := 0, latitude := 0 })], users := [] } "missing").2.2.1
      rfl⟩

/-- C8: `get_post_from_author` returns exactly the stored posts whose
`author_google_id` equals the argument, and the empty list — the normal,
non-error outcome — exactly when no stored post has that author. -/
theorem get_post_from_author_spec (db : FirestoreState) (author : String) (p : Post) :
    (p ∈ (DataGateway.get_post_from_author db author).1
      ↔ (∃ id, (id, p) ∈ db.posts) ∧ p.author_google_id = author)
    ∧ ((DataGateway.get_post_from_author db author).1 = []
      ↔ ∀ id q, (id, q) ∈ db.posts → q.author_google_id ≠ author) := by
  constructor
  · unfold DataGateway.get_post_from_author
    simp only
    rw [mem_map_snd]
    constructor
    · rintro ⟨id, h⟩
      rw [List.mem_filter] at h
      exact ⟨⟨id, h.1⟩, by simpa using h.2⟩
    · rintro ⟨⟨id, h⟩, ha⟩
      exact ⟨id, List.mem_filter.mpr ⟨h, by simpa using ha⟩⟩
  · unfold DataGateway.get_post_from_author
    simp only
    rw [List.map_eq_nil_iff, List.filter_eq_nil_iff]
    constructor
    · intro h id q hmem
      have := h (id, q) hmem
      simpa using this
    · intro h doc hmem
      have := h doc.1 doc.2 hmem
      simpa using this

/-- C2: contrary to the claim, the `POST /posts` endpoint does NOT answer 401
"Token not provided" when the auth header is absent: the inlined gate in
`add_post` lacks the `token = None` initialisation that the (commented-out)
`user_signed_up` decorator performs, so `if not token:` reads an unbound local
and the request dies with an uncaught `UnboundLocalError` (a 500), for every
decoder, store and request body; the decorator itself — the intended gate —
does produce the 401 "Token not provided" rejection on the same input. -/
theorem add_post_missing_header_crashes (decode : String → Option TokenClaims)
    (db : FirestoreState) (freshId title content : String) (longitude latitude : ℚ) :
    (Main.add_post decode db freshId
        { authHeader := none, title := title, content := content,
          longitude := longitude, latitude := latitude }).1
      = HttpResponse.serverError
    ∧ Main.user_signed_up decode db none
      = Except.error (HttpResponse.json 401 "Token not provided") :=
  ⟨rfl, rfl⟩

/-!  Concrete environments used by the C6 and C7 theorems below.  -/

/-- A concrete stand-in for the external `decode_openid_token` collaborator:
exactly the token "goodtoken" verifies, yielding subject id "g1". -/
def decodeCex : String → Option TokenClaims := fun token =>
  if token = "goodtoken" then
    some { google_id := "g1", name := "N", email := "e",
           token_issued_t := 0, token_expired_t := 10 }
  else none

/-- The claims `decodeCex` yields for "goodtoken". -/
def claimsCex : TokenClaims :=
  { google_id := "g1", name := "N", email := "e",
    token_issued_t := 0, token_expired_t := 10 }

/-- A store with no posts and no registered users. -/
def dbCex : FirestoreState := { posts := [], users := [] }

/-- A `POST /posts` request body with the given auth header. -/
def reqWith (h : Option String) : AddPostRequest :=
  { authHeader := h, title := "t", content := "c", longitude := 0, latitude := 0 }

/-- C6 counterexample: two rejected mutation requests whose externally visible
responses differ — a failed verification is answered 401 "Invalid token or
user not signed up" while an unregistered account is answered 401 with a body
naming the google id, so the body does distinguish the cause; a third
rejected request (missing header) does not even produce a 401. -/
theorem add_post_rejections_distinguishable :
    (Main.add_post decodeCex dbCex "f1" (reqWith (some "Bearer badtoken"))).1
      = HttpResponse.json 401 "Invalid token or user not signed up"
    ∧ (Main.add_post decodeCex dbCex "f1" (reqWith (some "Bearer goodtoken"))).1
      = HttpResponse.json 401 "User with google_id=g1 does not exist"
    ∧ (Main.add_post decodeCex dbCex "f1" (reqWith none)).1 = HttpResponse.serverError
    ∧ HttpResponse.json 401 "Invalid token or user not signed up"
      ≠ HttpResponse.json 401 "User with google_id=g1 does not exist" :=
  ⟨rfl, rfl, rfl, by decide⟩

/-- C6 as amended: every rejection that produces a response at all carries
status 401, but the bodies are cause-specific — a failed verification yields
"Invalid token or user not signed up", an unregistered account yields a
message naming the google id — and a missing or malformed auth header escapes
as an uncaught exception instead of any 401. -/
theorem add_post_rejection_taxonomy (decode : String → Option TokenClaims)
    (db : FirestoreState) (freshId : String) (req : AddPostRequest)
    (bearer token : String) (claims : TokenClaims) :
    (req.authHeader = none →
      (Main.add_post decode db freshId req).1 = HttpResponse.serverError)
    ∧ (req.authHeader = some bearer → (pySplit bearer)[1]? = none →
        (Main.add_post decode db freshId req).1 = HttpResponse.serverError)
    ∧ (req.authHeader = some bearer → (pySplit bearer)[1]? = some token →
        decode token = none →
        (Main.add_post decode db freshId req).1
          = HttpResponse.json 401 "Invalid token or user not signed up")
    ∧ (req.authHeader = some bearer → (pySplit bearer)[1]? = some token →
        decode token = some claims →
        (DataGateway.user_exists db claims.google_id).1 = false →
        (Main.add_post decode db freshId req).1
          = HttpResponse.json 401
              ("User with google_id=" ++ claims.google_id ++ " does not exist")) := by
  refine ⟨?_, ?_, ?_, ?_⟩
  · intro h
    simp [Main.add_post, h]
  · intro h hsplit
    simp [Main.add_post, h, hsplit]
  · intro h hsplit hdec
    simp [Main.add_post, h, hsplit, hdec]
  · intro h hsplit hdec huser
    simp [Main.add_post, h, hsplit, hdec, huser]

/-- C6 witness: the taxonomy applied to concrete rejected requests. -/
theorem add_post_rejection_taxonomy_witness :
    (Main.add_post decodeCex dbCex "f1" (reqWith none)).1 = HttpResponse.serverError
    ∧ (Main.add_post decodeCex dbCex "f1" (reqWith (some "Bearertok"))).1
      = HttpResponse.serverError
    ∧ (Main.add_post decodeCex dbCex "f1" (reqWith (some "Bearer badtoken"))).1
      = HttpResponse.json 401 "Invalid token or user not signed up"
    ∧ (Main.add_post decodeCex dbCex "f1" (reqWith (some "Bearer goodtoken"))).1
      = HttpResponse.json 401
          ("User with google_id=" ++ claimsCex.google_id ++ " does not exist") :=
  ⟨(add_post_rejection_taxonomy decodeCex dbCex "f1" (reqWith none)
      "b" "t" claimsCex).1 rfl,
   (add_post_rejection_taxonomy decodeCex dbCex "f1" (reqWith (some "Bearertok"))
      "Bearertok" "t" claimsCex).2.1 rfl rfl,
   (add_post_rejection_taxonomy decodeCex dbCex "f1" (reqWith (some "Bearer badtoken"))
      "Bearer badtoken" "badtoken" claimsCex).2.2.1 rfl rfl rfl,
   (add_post_rejection_taxonomy decodeCex dbCex "f1" (reqWith (some "Bearer goodtoken"))
      "Bearer goodtoken" "goodtoken" claimsCex).2.2.2 rfl rfl rfl rfl⟩

/-- A concrete stand-in for the external geodesic collaborator, used only to
compare behaviour at two radii: 100 meters per degree of latitude difference
(its exact values are irrelevant to what is being refuted). -/
def geoCex : ℚ → ℚ → ℚ → ℚ → ℚ := fun lat1 _lon1 lat2 _lon2 => (lat2 - lat1) * 100

/-- A post 100 meters (under `geoCex`) from the origin. -/
def postCex : Post :=
  { post_id := "p1", author_google_id := "a1", title := "T", content := "C",
    longitude := 0, latitude := 1 }

/-- A store holding exactly `postCex`. -/
def dbC7 : FirestoreState := { posts := [("p1", postCex)], users := [] }

/-- C7 counterexample: the spatial-read endpoint does not accept a
caller-supplied radius — a request carrying radius 5 km is answered exactly
like one carrying none, with a 404, even though the underlying query at
radius 5 km would have returned the stored post (and the handler would have
answered 200 had the supplied radius been used). -/
theorem radius_param_ignored :
    Main.get_posts_nearby_route geoCex dbC7 0 0 (some 5)
      = Main.get_posts_nearby_route geoCex dbC7 0 0 none
    ∧ (Main.get_posts_nearby_route geoCex dbC7 0 0 (some 5)).status = 404
    ∧ (DataGateway.get_posts_within_radius geoCex dbC7 0 0 5).1 = Except.ok [postCex]
    ∧ (Main.get_posts_nearby geoCex dbC7 0 0 5).status = 200 := by
  refine ⟨rfl, ?_, ?_, ?_⟩
  · with_unfolding_all decide
  · with_unfolding_all rfl
  · with_unfolding_all decide

/-- C7 as amended: the spatial-read route uses the radius 0.07 km for every
request — the handler's `radius_in_kilometers` parameter keeps its default on
every dispatch, and any radius the caller attaches to the request leaves the
response unchanged. -/
theorem radius_always_default (geo : ℚ → ℚ → ℚ → ℚ → ℚ) (db : FirestoreState)
    (longitude latitude : ℚ) (r1 r2 : Option ℚ) :
    Main.get_posts_nearby_route geo db longitude latitude r1
      = Main.get_posts_nearby_route geo db longitude latitude r2
    ∧ Main.get_posts_nearby_route geo db longitude latitude r1
      = Main.get_posts_nearby geo db longitude latitude (7 / 100) :=
  ⟨rfl, rfl⟩

end PostSpot
